import Mathlib

/-!
Verification development for the POSCO decarbonization capacity-expansion
optimizer.  The definitions below are a shallow embedding of the Python
sources (`src/io.py`, `src/model.py`, `src/export.py`, `src/run.py`, and the
original product-class variant `src/io_original.py`, `src/model_original.py`,
`src/run_original.py`).  Python floats are embedded as exact rationals `ℚ`;
Python dict lookups with a default (`d.get(k, v)`) are embedded as
`Option`-valued maps read through `Option.getD`.
-/

namespace PoscoDecarb

/-- Python's substring test `pat in s` on strings, as used by
`"CCUS" in r` in `model.py` and `export.py`. -/
def strContains (s pat : String) : Bool :=
  decide (pat.toList <:+: s.toList)

/-- One row of the `tech_routes` table, as read by `build_model`
(`model.py` lines 19-21). -/
structure Tech where
  unit_capacity_Mtpy : ℚ
  capex_USD_per_tpy : ℚ
  fixed_opex_USD_per_tpy : ℚ
  deriving DecidableEq

/-- One row of the `process_intensity` table; the eight keys read by
`build_model` (`model.py` lines 27-29); missing entries default to 0 at
load time (`.get(k, 0.0)`), so the embedded record is total. -/
structure Intensity where
  iron_ore_t_per_t : ℚ
  coking_coal_t_per_t : ℚ
  scrap_t_per_t : ℚ
  ng_GJ_per_t : ℚ
  electricity_MWh_per_t : ℚ
  h2_kg_per_t : ℚ
  fluxes_t_per_t : ℚ
  alloys_USD_per_t : ℚ
  deriving DecidableEq

/-- The parameter dictionary `p` produced by `io.load_parameters` and
consumed by `model.build_model` and the export functions.  The year range
`[t0, tN]` embeds Pyomo's `RangeSet(p["years"][0], p["years"][-1])`.
`free_alloc` is a partial year map read via `.get(t, 0.0)`. -/
structure Params where
  t0 : ℕ
  tN : ℕ
  routes : List String
  tech : String → Tech
  intensity : String → Intensity
  ef_scope1 : String → ℚ
  demand : ℕ → ℚ
  carbon_price : ℕ → ℚ
  free_alloc : ℕ → Option ℚ
  price_fn : String → ℕ → ℚ

/-- The contiguous model horizon `m.T = RangeSet(years[0], years[-1])`. -/
def Params.years (p : Params) : List ℕ :=
  List.range' p.t0 (p.tN + 1 - p.t0)

/-- Effective scope-1 emission factor computed by `build_model`
(`model.py` lines 31-37): the base factor, scaled by
`(1 - ccus_capture_max)` for routes whose name contains `"CCUS"`. -/
def build_ef (p : Params) (ccus_capture_max : ℚ) (r : String) : ℚ :=
  let v := p.ef_scope1 r
  if strContains r "CCUS" then v * (1 - ccus_capture_max) else v

/-- Effective scope-1 emission factor computed by both
`export_detailed_timeseries` (`export.py` lines 21-27) and
`export_timeseries` (`export.py` lines 135-140): the capture fraction is
hard-coded to `0.80` there, independent of the `ccus_capture_max`
configuration the model was built with. -/
def export_ef (p : Params) (r : String) : ℚ :=
  let v := p.ef_scope1 r
  if strContains r "CCUS" then v * (1 - 0.80) else v

/-- A degenerate tech row used for concrete instances. -/
def techA : Tech :=
  { unit_capacity_Mtpy := 1, capex_USD_per_tpy := 1, fixed_opex_USD_per_tpy := 1 }

/-- All-zero intensities used for concrete instances. -/
def intensZero : Intensity :=
  { iron_ore_t_per_t := 0, coking_coal_t_per_t := 0, scrap_t_per_t := 0,
    ng_GJ_per_t := 0, electricity_MWh_per_t := 0, h2_kg_per_t := 0,
    fluxes_t_per_t := 0, alloys_USD_per_t := 0 }

/-- A one-route parameter set whose single route is a CCUS route with
base emission factor 1.  Used to separate the builder's and the
exporters' emission factors. -/
def pEF : Params :=
  { t0 := 0, tN := 0, routes := ["BF-BOF+CCUS"],
    tech := fun _ => techA, intensity := fun _ => intensZero,
    ef_scope1 := fun _ => 1, demand := fun _ => 0,
    carbon_price := fun _ => 0, free_alloc := fun _ => none,
    price_fn := fun _ _ => 0 }

/-- C1 (amended): the model builder computes
`ef_eff[r] = ef_base[r]·(1 − capture_fraction)` for CCUS routes and
`ef_base[r]` otherwise; the exporters compute the same shape but with the
capture fraction fixed at `0.80`, so builder and exporter agree for every
route exactly when the builder was configured with capture fraction
`0.80` (the default); they also agree on every non-CCUS route. -/
theorem effective_ef_agree_iff_default (p : Params) (cc : ℚ) (r : String) :
    build_ef p cc r =
      (if strContains r "CCUS" then p.ef_scope1 r * (1 - cc) else p.ef_scope1 r)
    ∧ export_ef p r =
      (if strContains r "CCUS" then p.ef_scope1 r * (1 - 0.80) else p.ef_scope1 r)
    ∧ build_ef p 0.80 r = export_ef p r := by
  refine ⟨rfl, rfl, ?_⟩
  unfold build_ef export_ef
  rfl

/-- C1 counterexample: with capture-fraction configuration `1/2`, the
objective's emission factor for the CCUS route is `1/2` while the
post-solve accounting in both export functions uses `1/5`; the claimed
builder/exporter equality fails for this configuration. -/
theorem effective_ef_mismatch_cex :
    build_ef pEF (1/2) "BF-BOF+CCUS" = 1/2
    ∧ export_ef pEF "BF-BOF+CCUS" = 1/5
    ∧ build_ef pEF (1/2) "BF-BOF+CCUS" ≠ export_ef pEF "BF-BOF+CCUS" := by
  have h : strContains "BF-BOF+CCUS" "CCUS" = true := by decide
  refine ⟨?_, ?_, ?_⟩ <;> norm_num [build_ef, export_ef, pEF, h]

/-- A value assignment to the decision variables of the aggregate model
(`model.py` lines 39-43): `Q`, `K`, `ETSpos` are nonnegative reals
(nonnegativity carried separately in `Domains`), `Build` ranges over the
nonnegative integers. -/
structure Assign where
  Q : String → ℕ → ℚ
  K : String → ℕ → ℚ
  Build : String → ℕ → ℕ
  ETSpos : ℕ → ℚ

/-- Initial (pre-build) capacity in `build_model` (`model.py` lines 45-48):
all demand in the first year is covered by `"BF-BOF"`; every other route
starts at zero. -/
def init_cap (p : Params) (r : String) : ℚ :=
  if r = "BF-BOF" then p.demand p.t0 else 0.0

/-- Constraint `m.CapacityBalance` (`model.py` lines 50-55). -/
def CapBalance (p : Params) (a : Assign) : Prop :=
  ∀ r ∈ p.routes, ∀ t ∈ p.years,
    if t = p.t0 then
      a.K r t = init_cap p r + (p.tech r).unit_capacity_Mtpy * (a.Build r t : ℚ)
    else
      a.K r t = a.K r (t - 1) + (p.tech r).unit_capacity_Mtpy * (a.Build r t : ℚ)

/-- Constraint `m.ProdLimit` (`model.py` lines 57-60). -/
def ProdLimit (p : Params) (utilization : ℚ) (a : Assign) : Prop :=
  ∀ r ∈ p.routes, ∀ t ∈ p.years, a.Q r t ≤ utilization * a.K r t

/-- Constraint `m.Demand` (`model.py` lines 62-65): equality with the
demand parameter. -/
def DemandBalance (p : Params) (a : Assign) : Prop :=
  ∀ t ∈ p.years, (p.routes.map (fun r => a.Q r t)).sum = p.demand t

/-- Constraint `m.ETSBalance` (`model.py` lines 67-72): the slack is at
least scope-1 emissions minus free allocation (`free_alloc.get(t, 0.0)`). -/
def ETSBalance (p : Params) (ccus_capture_max : ℚ) (a : Assign) : Prop :=
  ∀ t ∈ p.years,
    a.ETSpos t ≥
      (p.routes.map (fun r => build_ef p ccus_capture_max r * a.Q r t)).sum
        - (p.free_alloc t).getD 0.0

/-- Variable domains (`model.py` lines 39-43): `NonNegativeReals` for
`Q`, `K`, `ETSpos` (`Build` is a `ℕ` in the embedding, hence
nonnegative by type). -/
def Domains (p : Params) (a : Assign) : Prop :=
  ∀ t ∈ p.years, 0 ≤ a.ETSpos t ∧ ∀ r ∈ p.routes, 0 ≤ a.Q r t ∧ 0 ≤ a.K r t

/-- A feasible assignment of the aggregate model built by
`model.build_model`: all constraint families plus variable domains. -/
def Feasible (p : Params) (utilization ccus_capture_max : ℚ) (a : Assign) : Prop :=
  CapBalance p a ∧ ProdLimit p utilization a ∧ DemandBalance p a
    ∧ ETSBalance p ccus_capture_max a ∧ Domains p a

/-- A concrete two-year, one-route parameter set (unit demand, unit base
emission factor, no free allocation). -/
def pA : Params :=
  { t0 := 0, tN := 1, routes := ["BF-BOF"],
    tech := fun _ => techA, intensity := fun _ => intensZero,
    ef_scope1 := fun _ => 1, demand := fun _ => 1,
    carbon_price := fun _ => 1, free_alloc := fun _ => none,
    price_fn := fun _ _ => 0 }

/-- A concrete assignment meeting every constraint of `pA` at
utilization 1 and capture fraction 0: constant unit production out of the
initial `"BF-BOF"` capacity, no builds, unit ETS slack. -/
def aA : Assign :=
  { Q := fun _ _ => 1, K := fun _ _ => 1, Build := fun _ _ => 0,
    ETSpos := fun _ => 1 }

/-- The concrete aggregate instance is feasible. -/
theorem feasible_pA_aA : Feasible pA 1 0 aA := by
  have hc : strContains "BF-BOF" "CCUS" = false := by decide
  refine ⟨?_, ?_, ?_, ?_, ?_⟩ <;>
    simp [CapBalance, ProdLimit, DemandBalance, ETSBalance, Domains,
      Params.years, pA, aA, techA, init_cap, build_ef, hc, List.range'] <;>
    norm_num

/-- The fixed route set of the product-class variant
(`model_original.py` line 9). -/
def RoutesO : List String :=
  ["BF-BOF", "BF-BOF+CCUS", "Scrap EAF", "NG-DRI-EAF", "H2-DRI/HyREX"]

/-- The fixed product-class set `m.K` (`model_original.py` line 10). -/
def ClassesO : List String :=
  ["flat_auto_exposed", "flat_other", "long"]

/-- Routes allowed to serve auto-exposed demand
(`model_original.py` line 82). -/
def allowedAuto : List String :=
  ["Scrap EAF", "NG-DRI-EAF", "H2-DRI/HyREX"]

/-- The inputs of `model_original.build_model` after data preparation:
per-class demand `D`, the `unit_capacity_Mtpy` dict `cap_add` (read with
default 1.0), and the DR-grade supply dict (read with default 0.0). -/
structure ParamsO where
  t0 : ℕ
  tN : ℕ
  D : ℕ → String → ℚ
  capAdd : String → Option ℚ
  drSupply : ℕ → Option ℚ

/-- The model horizon `m.T = RangeSet(min(years), max(years))`. -/
def ParamsO.years (po : ParamsO) : List ℕ :=
  List.range' po.t0 (po.tN + 1 - po.t0)

/-- A value assignment for the product-class variant
(`model_original.py` lines 44-47): binary build indicators `x`,
capacity `Kcap`, production `Q` by route and product class. -/
structure AssignO where
  x : String → ℕ → Bool
  Kcap : String → ℕ → ℚ
  Q : String → String → ℕ → ℚ

/-- Numeric value of a binary variable. -/
def b2q (b : Bool) : ℚ := if b then 1 else 0

/-- Constraint `m.CapacityEvo` (`model_original.py` lines 50-54): an
inequality (lower bound), with no initial-capacity term at the first
year. -/
def CapEvo (po : ParamsO) (ao : AssignO) : Prop :=
  ∀ r ∈ RoutesO, ∀ t ∈ po.years,
    if t = po.t0 then
      ao.Kcap r t ≥ (po.capAdd r).getD 1.0 * b2q (ao.x r t)
    else
      ao.Kcap r t ≥ ao.Kcap r (t - 1) + (po.capAdd r).getD 1.0 * b2q (ao.x r t)

/-- Constraint `m.Util` (`model_original.py` lines 56-60): one aggregate
inequality per year, summed over all routes and classes on the left and
all routes on the right (`u = 0.9` for every route). -/
def UtilO (po : ParamsO) (ao : AssignO) : Prop :=
  ∀ t ∈ po.years,
    (RoutesO.map (fun r => (ClassesO.map (fun k => ao.Q r k t)).sum)).sum
      ≤ (RoutesO.map (fun r => (0.9 : ℚ) * ao.Kcap r t)).sum

/-- Constraint `m.Demand` (`model_original.py` lines 62-65): per-class
inequality. -/
def DemandO (po : ParamsO) (ao : AssignO) : Prop :=
  ∀ k ∈ ClassesO, ∀ t ∈ po.years,
    (RoutesO.map (fun r => ao.Q r k t)).sum ≥ po.D t k

/-- Constraint `m.AutoExposedCap` (`model_original.py` lines 79-84):
low-carbon routes may serve auto-exposed demand only up to DR-grade
feedstock availability (`drdict.get(t, 0.0)`). -/
def AutoCapO (po : ParamsO) (ao : AssignO) : Prop :=
  ∀ t ∈ po.years,
    (allowedAuto.map (fun r => ao.Q r "flat_auto_exposed" t)).sum
      ≤ (po.drSupply t).getD 0.0

/-- Constraint `m.Monotone` (`model_original.py` lines 86-91): the build
indicator never decreases over time. -/
def MonotoneO (po : ParamsO) (ao : AssignO) : Prop :=
  ∀ r ∈ RoutesO, ∀ t ∈ po.years,
    if t = po.t0 then b2q (ao.x r t) ≥ 0
    else b2q (ao.x r t) ≥ b2q (ao.x r (t - 1))

/-- Variable domains of the product-class variant
(`model_original.py` lines 44-47): `Kcap` and `Q` are nonnegative
(`x` is a `Bool` in the embedding, hence binary by type). -/
def DomainsO (po : ParamsO) (ao : AssignO) : Prop :=
  ∀ r ∈ RoutesO, ∀ t ∈ po.years,
    0 ≤ ao.Kcap r t ∧ ∀ k ∈ ClassesO, 0 ≤ ao.Q r k t

/-- A feasible assignment of the product-class model built by
`model_original.build_model`. -/
def FeasibleO (po : ParamsO) (ao : AssignO) : Prop :=
  CapEvo po ao ∧ UtilO po ao ∧ DemandO po ao ∧ AutoCapO po ao
    ∧ MonotoneO po ao ∧ DomainsO po ao

/-- A concrete two-year product-class parameter set with zero demand and
no DR-grade supply. -/
def poC : ParamsO :=
  { t0 := 0, tN := 1, D := fun _ _ => 0, capAdd := fun _ => none,
    drSupply := fun _ => none }

/-- A concrete assignment for `poC`: nothing is built and nothing is
produced, yet capacity jumps from 0 to 5 in the second year — the
capacity-evolution lower bound permits uncaused capacity. -/
def aoC : AssignO :=
  { x := fun _ _ => false,
    Kcap := fun _ t => if t = 0 then 0 else 5,
    Q := fun _ _ _ => 0 }

/-- The slack assignment `aoC` is feasible for the product-class model. -/
theorem feasibleO_poC_aoC : FeasibleO poC aoC := by
  refine ⟨?_, ?_, ?_, ?_, ?_, ?_⟩ <;>
    simp [CapEvo, UtilO, DemandO, AutoCapO, MonotoneO, DomainsO,
      ParamsO.years, poC, aoC, b2q, RoutesO, ClassesO, allowedAuto,
      List.range'] <;>
    norm_num

/-- A concrete one-year product-class parameter set with zero demand. -/
def po6 : ParamsO :=
  { t0 := 0, tN := 0, D := fun _ _ => 0, capAdd := fun _ => none,
    drSupply := fun _ => none }

/-- A concrete assignment for `po6`: all capacity sits in `"Scrap EAF"`
while all production comes from `"BF-BOF"` (in class `"flat_other"`);
only the aggregate utilization bound is enforced, so this is feasible. -/
def ao6 : AssignO :=
  { x := fun _ _ => false,
    Kcap := fun r _ => if r = "Scrap EAF" then 10 else 0,
    Q := fun r k _ => if r = "BF-BOF" then (if k = "flat_other" then 5 else 0) else 0 }

/-- The cross-utilization assignment `ao6` is feasible for the
product-class model. -/
theorem feasibleO_po6_ao6 : FeasibleO po6 ao6 := by
  refine ⟨?_, ?_, ?_, ?_, ?_, ?_⟩ <;>
    simp [CapEvo, UtilO, DemandO, AutoCapO, MonotoneO, DomainsO,
      ParamsO.years, po6, ao6, b2q, RoutesO, ClassesO, allowedAuto,
      List.range'] <;>
    norm_num

/-- C4 (amended): in every feasible assignment of the aggregate model,
capacity accumulates exactly: `K[r,t] = K[r,t-1] + unit_capacity[r]·Build[r,t]`
for `t > t0` and `K[r,t0] = initial_capacity[r] + unit_capacity[r]·Build[r,t0]`.
In the product-class variant the capacity-evolution constraint is only a
lower bound (`≥`), with no initial-capacity term at the first year, so
capacity need not accumulate exactly there. -/
theorem capacity_balance_exact_vs_lower_bound
    (p : Params) (u cc : ℚ) (a : Assign) (po : ParamsO) (ao : AssignO)
    (hA : Feasible p u cc a) (hO : FeasibleO po ao) :
    (∀ r ∈ p.routes, ∀ t ∈ p.years,
        (p.t0 < t →
          a.K r t = a.K r (t - 1)
            + (p.tech r).unit_capacity_Mtpy * (a.Build r t : ℚ))
        ∧ (t = p.t0 →
          a.K r t = init_cap p r
            + (p.tech r).unit_capacity_Mtpy * (a.Build r t : ℚ)))
    ∧ (∀ r ∈ RoutesO, ∀ t ∈ po.years,
        (po.t0 < t →
          ao.Kcap r t ≥ ao.Kcap r (t - 1)
            + (po.capAdd r).getD 1.0 * b2q (ao.x r t))
        ∧ (t = po.t0 →
          ao.Kcap r t ≥ (po.capAdd r).getD 1.0 * b2q (ao.x r t))) := by
  constructor
  · intro r hr t ht
    have h := hA.1 r hr t ht
    constructor
    · intro hlt
      rwa [if_neg (ne_of_gt hlt)] at h
    · intro heq
      rwa [if_pos heq] at h
  · intro r hr t ht
    have h := hO.1 r hr t ht
    constructor
    · intro hlt
      rwa [if_neg (ne_of_gt hlt)] at h
    · intro heq
      rwa [if_pos heq] at h

/-- Witness for C4 at the concrete instances: the aggregate equality and
the product-class lower bound at the second year. -/
theorem capacity_balance_witness :
    aA.K "BF-BOF" 1 = aA.K "BF-BOF" 0
        + (pA.tech "BF-BOF").unit_capacity_Mtpy * (aA.Build "BF-BOF" 1 : ℚ)
    ∧ aoC.Kcap "BF-BOF" 1 ≥ aoC.Kcap "BF-BOF" 0
        + (poC.capAdd "BF-BOF").getD 1.0 * b2q (aoC.x "BF-BOF" 1) := by
  have h := capacity_balance_exact_vs_lower_bound pA 1 0 aA poC aoC
    feasible_pA_aA feasibleO_poC_aoC
  exact ⟨(h.1 "BF-BOF" (by decide) 1 (by decide)).1 (by decide),
         (h.2 "BF-BOF" (by decide) 1 (by decide)).1 (by decide)⟩

/-- C4 counterexample: a feasible assignment of the product-class model
in which nothing is ever built (`x ≡ 0`) yet capacity jumps from 0 to 5
between the first and second year — capacity does not accumulate exactly
by built units in that variant. -/
theorem capacity_slack_cex :
    FeasibleO poC aoC
    ∧ ¬ (aoC.Kcap "BF-BOF" 1 = aoC.Kcap "BF-BOF" 0
          + (poC.capAdd "BF-BOF").getD 1.0 * b2q (aoC.x "BF-BOF" 1)) := by
  refine ⟨feasibleO_poC_aoC, ?_⟩
  norm_num [aoC, poC, b2q]

/-- C5: every feasible assignment of the aggregate model meets demand
with equality each year; every feasible assignment of the product-class
model satisfies the per-class covering inequality together with the
DR-grade feedstock cap on the low-carbon routes serving auto-exposed
demand. -/
theorem demand_constraints_both_variants
    (p : Params) (u cc : ℚ) (a : Assign) (po : ParamsO) (ao : AssignO)
    (hA : Feasible p u cc a) (hO : FeasibleO po ao) :
    (∀ t ∈ p.years, (p.routes.map (fun r => a.Q r t)).sum = p.demand t)
    ∧ (∀ k ∈ ClassesO, ∀ t ∈ po.years,
        (RoutesO.map (fun r => ao.Q r k t)).sum ≥ po.D t k)
    ∧ (∀ t ∈ po.years,
        (allowedAuto.map (fun r => ao.Q r "flat_auto_exposed" t)).sum
          ≤ (po.drSupply t).getD 0.0) :=
  ⟨hA.2.2.1, hO.2.2.1, hO.2.2.2.1⟩

/-- Witness for C5 at the concrete instances. -/
theorem demand_constraints_witness :
    (pA.routes.map (fun r => aA.Q r 0)).sum = pA.demand 0
    ∧ (RoutesO.map (fun r => aoC.Q r "long" 0)).sum ≥ poC.D 0 "long"
    ∧ (allowedAuto.map (fun r => aoC.Q r "flat_auto_exposed" 0)).sum
        ≤ (poC.drSupply 0).getD 0.0 := by
  have h := demand_constraints_both_variants pA 1 0 aA poC aoC
    feasible_pA_aA feasibleO_poC_aoC
  exact ⟨h.1 0 (by decide), h.2.1 "long" (by decide) 0 (by decide),
         h.2.2 0 (by decide)⟩

/-- C6 (amended): the aggregate model bounds production per route by
utilized capacity (`Q[r,t] ≤ utilization·K[r,t]`); the product-class
variant enforces only one aggregated inequality per year — total
production over all routes and classes against total utilized capacity —
so an individual route may exceed its own utilized capacity there. -/
theorem production_capacity_bounds
    (p : Params) (u cc : ℚ) (a : Assign) (po : ParamsO) (ao : AssignO)
    (hA : Feasible p u cc a) (hO : FeasibleO po ao) :
    (∀ r ∈ p.routes, ∀ t ∈ p.years, a.Q r t ≤ u * a.K r t)
    ∧ (∀ t ∈ po.years,
        (RoutesO.map (fun r => (ClassesO.map (fun k => ao.Q r k t)).sum)).sum
          ≤ (RoutesO.map (fun r => (0.9 : ℚ) * ao.Kcap r t)).sum) :=
  ⟨hA.2.1, hO.2.1⟩

/-- Witness for C6 at the concrete instances. -/
theorem production_capacity_bounds_witness :
    aA.Q "BF-BOF" 1 ≤ 1 * aA.K "BF-BOF" 1
    ∧ (RoutesO.map (fun r => (ClassesO.map (fun k => ao6.Q r k 0)).sum)).sum
        ≤ (RoutesO.map (fun r => (0.9 : ℚ) * ao6.Kcap r 0)).sum := by
  refine ⟨?_, ?_⟩
  · exact (production_capacity_bounds pA 1 0 aA poC aoC
      feasible_pA_aA feasibleO_poC_aoC).1 "BF-BOF" (by decide) 1 (by decide)
  · exact (production_capacity_bounds pA 1 0 aA po6 ao6
      feasible_pA_aA feasibleO_po6_ao6).2 0 (by decide)

/-- C6 counterexample: a feasible assignment of the product-class model
in which route `"BF-BOF"` produces 5 with zero capacity of its own
(covered by `"Scrap EAF"` capacity through the aggregated bound) — the
per-route bound `Q[r,t] ≤ 0.9·K[r,t]` fails. -/
theorem aggregate_util_only_cex :
    FeasibleO po6 ao6
    ∧ ¬ ((ClassesO.map (fun k => ao6.Q "BF-BOF" k 0)).sum
          ≤ (0.9 : ℚ) * ao6.Kcap "BF-BOF" 0) := by
  refine ⟨feasibleO_po6_ao6, ?_⟩
  simp [ClassesO, ao6]

/-- The price helper of `build_model` (`model.py` lines 74-76) and the
export functions: a direct call into the resolved price function. -/
def price (p : Params) (commodity : String) (year : ℕ) : ℚ :=
  p.price_fn commodity year

/-- Variable cost per tonne for a route in a year (`model.py` lines
89-101, identically `export.py` lines 77-91): each intensity times its
resolved commodity price, hydrogen drawn from the optimistic or baseline
series according to configuration, plus the alloys cost taken directly
in USD per tonne. -/
def usd_per_t (p : Params) (hydrogen_case : String) (r : String) (t : ℕ) : ℚ :=
  let i := p.intensity r
  let ore := i.iron_ore_t_per_t * price p "iron_ore_USD_per_t" t
  let coal := i.coking_coal_t_per_t * price p "coking_coal_USD_per_t" t
  let scrap := i.scrap_t_per_t * price p "scrap_USD_per_t" t
  let ng := i.ng_GJ_per_t * price p "ng_USD_per_GJ" t
  let elec := i.electricity_MWh_per_t * price p "electricity_USD_per_MWh" t
  let h2 :=
    if hydrogen_case = "optimistic" then
      i.h2_kg_per_t * price p "hydrogen_USD_per_kg_optimistic" t
    else
      i.h2_kg_per_t * price p "hydrogen_USD_per_kg_baseline" t
  let flux := i.fluxes_t_per_t * price p "fluxes_USD_per_t" t
  let alloys := i.alloys_USD_per_t
  ore + coal + scrap + ng + elec + h2 + flux + alloys

/-- The objective `obj_rule` of `build_model` (`model.py` lines 79-107),
evaluated on an assignment: the yearly loop accumulating
`disc · (capex_t + fix_t + var_t + ets_t)`, with the `·1e6` factors
converting Mt/Mtpy/MtCO2 quantities to the t/tpy/tCO2 units of the USD
coefficients. -/
def obj_rule (p : Params) (discount_rate : ℚ) (hydrogen_case : String)
    (a : Assign) : ℚ :=
  (p.years.map (fun t =>
    let disc := 1.0 / ((1.0 + discount_rate) ^ (t - p.t0))
    let capex_t := (p.routes.map (fun r =>
      (a.Build r t : ℚ) * (p.tech r).unit_capacity_Mtpy
        * (p.tech r).capex_USD_per_tpy * 1e6)).sum
    let fix_t := (p.routes.map (fun r =>
      a.K r t * (p.tech r).fixed_opex_USD_per_tpy * 1e6)).sum
    let var_t := (p.routes.map (fun r =>
      a.Q r t * usd_per_t p hydrogen_case r t * 1e6)).sum
    let ets_t := p.carbon_price t * a.ETSpos t * 1e6
    disc * (capex_t + fix_t + var_t + ets_t))).sum

/-- The discount factor as the spec writes it:
`discount_factor(t) = 1/(1+discount_rate)^(t−t0)`. -/
def discount_factor (discount_rate : ℚ) (t0 t : ℕ) : ℚ :=
  1 / (1 + discount_rate) ^ (t - t0)

/-- Yearly capital cost `CAPEX(t) = Σ_r Build[r,t]·unit_capacity[r]·capex_per_unit[r]`
in Mt·USD-per-t units (the model objective scales it by `1e6` to USD). -/
def CAPEX (p : Params) (a : Assign) (t : ℕ) : ℚ :=
  (p.routes.map (fun r =>
    (a.Build r t : ℚ) * (p.tech r).unit_capacity_Mtpy
      * (p.tech r).capex_USD_per_tpy)).sum

/-- Yearly fixed O&M `FixedOM(t) = Σ_r K[r,t]·fixed_opex_per_unit[r]`
in the same Mt·USD-per-t units. -/
def FixedOM (p : Params) (a : Assign) (t : ℕ) : ℚ :=
  (p.routes.map (fun r => a.K r t * (p.tech r).fixed_opex_USD_per_tpy)).sum

/-- Yearly variable OPEX `VariableOPEX(t) = Σ_r Q[r,t]·unit_cost(r,t)`. -/
def VariableOPEX (p : Params) (hydrogen_case : String) (a : Assign) (t : ℕ) : ℚ :=
  (p.routes.map (fun r => a.Q r t * usd_per_t p hydrogen_case r t)).sum

/-- Yearly ETS cost `ETSCost(t) = carbon_price[t]·ETSpos[t]`. -/
def ETSCost (p : Params) (a : Assign) (t : ℕ) : ℚ :=
  p.carbon_price t * a.ETSpos t

/-- Pulling a constant factor out of a mapped list sum. -/
theorem sum_map_mul_right_const {α : Type} (l : List α) (f : α → ℚ) (c : ℚ) :
    (l.map (fun x => f x * c)).sum = (l.map f).sum * c := by
  induction l with
  | nil => simp
  | cons x xs ih => simp [ih, add_mul]

/-- C3: the objective built by `build_model` equals
`Σ_t discount_factor(t)·(CAPEX(t) + FixedOM(t) + VariableOPEX(t) + ETSCost(t))`
with `discount_factor(t) = 1/(1+discount_rate)^(t−t0)`, up to the uniform
unit-conversion factor `1e6` (Mt → t) applied to all four cost terms
alike. -/
theorem objective_decomposition (p : Params) (dr : ℚ) (hc : String) (a : Assign) :
    obj_rule p dr hc a =
      (p.years.map (fun t =>
        discount_factor dr p.t0 t *
          ((CAPEX p a t + FixedOM p a t + VariableOPEX p hc a t
            + ETSCost p a t) * 1e6))).sum := by
  unfold obj_rule
  congr 1
  apply List.map_congr_left
  intro t _
  simp only [CAPEX, FixedOM, VariableOPEX, ETSCost, discount_factor,
    sum_map_mul_right_const]
  ring

/-- One per-year record written by `export_detailed_timeseries`
(`export.py` lines 39-118).  The per-route production/capacity columns
(`Q_{r}_Mt`, `K_{r}_Mtpy`, `Build_{r}_units`) are carried as association
lists; the two running-cumulative columns appended afterwards
(`export.py` lines 125-127) are sums of fields already present and are
not needed by any claim. -/
structure DetailedRow where
  year : ℕ
  scope1_emissions_MtCO2 : ℚ
  scope2_emissions_MtCO2 : ℚ
  free_allocation_MtCO2 : ℚ
  carbon_price_USD_per_tCO2 : ℚ
  ets_cost_USD : ℚ
  ets_positive_MtCO2 : ℚ
  ets_cost_discounted_USD : ℚ
  ets_cost_calculated_USD : ℚ
  ets_validation_match : Bool
  capex_USD : ℚ
  capex_discounted_USD : ℚ
  fixed_om_USD : ℚ
  fixed_om_discounted_USD : ℚ
  opex_USD : ℚ
  opex_discounted_USD : ℚ
  total_cost_USD : ℚ
  total_cost_discounted_USD : ℚ
  Q_Mt : List (String × ℚ)
  total_steel_Mt : ℚ
  total_production_Mt : ℚ
  K_Mtpy : List (String × ℚ)
  Build_units : List (String × ℚ)
  demand_Mt : ℚ
  demand_satisfied : Bool

/-- The body of the per-year loop of `export_detailed_timeseries`
(`export.py` lines 39-118), computed from the solved assignment.  The
emission factor is `export_ef` (capture fraction hard-coded to 0.80);
the dual-path ETS check compares `ETSpos·price·1e6` against
`max(0, scope1 − free_alloc)·1e6·price` with absolute tolerance `1e3`
and records the outcome in the boolean column `ets_validation_match`;
the function is total — no exception path exists. -/
def detailed_row (p : Params) (discount_rate utilization : ℚ)
    (hydrogen_case : String) (a : Assign) (t : ℕ) : DetailedRow :=
  let discount_factor_t := 1.0 / ((1.0 + discount_rate) ^ (t - p.t0))
  let scope1_emissions := (p.routes.map (fun r => export_ef p r * a.Q r t)).sum
  let free_allocation := (p.free_alloc t).getD 0.0
  let carbon_price_t := p.carbon_price t
  let ets_positive_mt := a.ETSpos t
  let ets_cost := ets_positive_mt * carbon_price_t * 1e6
  let net_emissions := max 0 (scope1_emissions - free_allocation)
  let ets_cost_calc := net_emissions * 1e6 * carbon_price_t
  let capex_year := (p.routes.map (fun r =>
    (a.Build r t : ℚ) * (p.tech r).unit_capacity_Mtpy
      * (p.tech r).capex_USD_per_tpy * 1e6)).sum
  let fixed_om_year := (p.routes.map (fun r =>
    a.K r t * (p.tech r).fixed_opex_USD_per_tpy * 1e6)).sum
  let var_opex_year := (p.routes.map (fun r =>
    (a.Q r t * 1e6) * usd_per_t p hydrogen_case r t)).sum
  let total_production := (p.routes.map (fun r => a.Q r t)).sum
  { year := t
    scope1_emissions_MtCO2 := scope1_emissions
    scope2_emissions_MtCO2 := 0.0
    free_allocation_MtCO2 := free_allocation
    carbon_price_USD_per_tCO2 := carbon_price_t
    ets_cost_USD := ets_cost
    ets_positive_MtCO2 := ets_positive_mt
    ets_cost_discounted_USD := ets_cost * discount_factor_t
    ets_cost_calculated_USD := ets_cost_calc
    ets_validation_match := decide (|ets_cost - ets_cost_calc| < 1e3)
    capex_USD := capex_year
    capex_discounted_USD := capex_year * discount_factor_t
    fixed_om_USD := fixed_om_year
    fixed_om_discounted_USD := fixed_om_year * discount_factor_t
    opex_USD := var_opex_year
    opex_discounted_USD := var_opex_year * discount_factor_t
    total_cost_USD := capex_year + fixed_om_year + var_opex_year + ets_cost
    total_cost_discounted_USD :=
      (capex_year + fixed_om_year + var_opex_year + ets_cost) * discount_factor_t
    Q_Mt := p.routes.map (fun r => (r, a.Q r t))
    total_steel_Mt := total_production
    total_production_Mt := total_production
    K_Mtpy := p.routes.map (fun r => (r, a.K r t))
    Build_units := p.routes.map (fun r => (r, (a.Build r t : ℚ)))
    demand_Mt := p.demand t
    demand_satisfied := decide (|total_production - p.demand t| < 1e-6) }

/-- The full row list written by `export_detailed_timeseries`: one row
per model year, unconditionally. -/
def export_detailed_rows (p : Params) (discount_rate utilization : ℚ)
    (hydrogen_case : String) (a : Assign) : List DetailedRow :=
  p.years.map (detailed_row p discount_rate utilization hydrogen_case a)

/-- One per-year record written by `export_timeseries`
(`export.py` lines 142-152). -/
structure SeriesRow where
  year : ℕ
  Q_Mt : List (String × ℚ)
  scope1_MtCO2 : ℚ
  free_alloc_MtCO2 : ℚ
  carbon_price_USDpt : ℚ

/-- The row list written by `export_timeseries` (`export.py` lines
131-154), using the same hard-coded-capture emission factor. -/
def export_timeseries_rows (p : Params) (a : Assign) : List SeriesRow :=
  p.years.map (fun t =>
    { year := t
      Q_Mt := p.routes.map (fun r => (r, a.Q r t))
      scope1_MtCO2 := (p.routes.map (fun r => export_ef p r * a.Q r t)).sum
      free_alloc_MtCO2 := (p.free_alloc t).getD 0.0
      carbon_price_USDpt := p.carbon_price t })

/-- C2 (amended): the accountant computes ETS cost twice — once from the
solved slack (`ETSpos[t]·carbon_price·1e6`) and once independently as
`max(0, scope1 − free_alloc)·1e6·carbon_price` — but it compares them
with absolute tolerance `1e3` USD (not `1e-3`) and records the outcome
in the boolean data column `ets_validation_match`; no `ConsistencyError`
(or any exception) is raised, and one row per year is produced
regardless of the comparison's outcome. -/
theorem ets_dual_path_reported_as_data (p : Params) (dr u : ℚ)
    (hc : String) (a : Assign) (t : ℕ) :
    (detailed_row p dr u hc a t).ets_cost_USD
        = a.ETSpos t * p.carbon_price t * 1e6
    ∧ (detailed_row p dr u hc a t).ets_cost_calculated_USD
        = max 0 ((p.routes.map (fun r => export_ef p r * a.Q r t)).sum
            - (p.free_alloc t).getD 0.0) * 1e6 * p.carbon_price t
    ∧ (detailed_row p dr u hc a t).ets_validation_match
        = decide (|(detailed_row p dr u hc a t).ets_cost_USD
            - (detailed_row p dr u hc a t).ets_cost_calculated_USD| < 1e3)
    ∧ (export_detailed_rows p dr u hc a).length = p.years.length :=
  ⟨rfl, rfl, rfl, List.length_map _ _⟩

/-- A concrete assignment for `pA` whose ETS slack `1.0005` sits 0.0005
MtCO2 (500 tCO2) above net emissions: at unit carbon price the two ETS
cost paths then differ by exactly 500 USD. -/
def aC2 : Assign :=
  { Q := fun _ _ => 1, K := fun _ _ => 1, Build := fun _ _ => 0,
    ETSpos := fun _ => 1.0005 }

/-- C2 counterexample: at a concrete solved point the two ETS cost paths
disagree by exactly 500 USD — far beyond the claimed `1e-3` tolerance —
yet the accountant records `ets_validation_match = true` (500 < the
actual coded tolerance `1e3`) as a data column and returns the row
normally instead of raising `ConsistencyError`. -/
theorem ets_no_raise_cex :
    (detailed_row pA 0 0.9 "baseline" aC2 0).ets_cost_USD
        - (detailed_row pA 0 0.9 "baseline" aC2 0).ets_cost_calculated_USD = 500
    ∧ ¬ (|(detailed_row pA 0 0.9 "baseline" aC2 0).ets_cost_USD
          - (detailed_row pA 0 0.9 "baseline" aC2 0).ets_cost_calculated_USD|
            ≤ 1e-3)
    ∧ (detailed_row pA 0 0.9 "baseline" aC2 0).ets_validation_match = true := by
  have hc : strContains "BF-BOF" "CCUS" = false := by decide
  refine ⟨?_, ?_, ?_⟩ <;>
    norm_num [detailed_row, pA, aC2, export_ef, hc, techA]

/-- The required sheet names checked by `io.load_parameters`
(`io.py` lines 4-7). -/
def REQUIRED_SHEETS : List String :=
  ["tech_routes", "process_intensity", "ef_scope1", "fuel_prices",
   "carbon_price", "free_allocation_linked", "demand_path"]

/-- The two data-loading failure modes of `io.load_parameters` and
`io_original.select_scenario`.  In the Python source both are raised as
`ValueError` with distinguishing messages (`"Required sheet missing: …"`
at `io.py` line 13, `"Scenario … not found …"` at `io.py` line 25 and
`io_original.py` line 12); the embedding distinguishes them by
constructor. -/
inductive DataError where
  | missingSheet (name : String)
  | unknownScenario (name : String)
  deriving DecidableEq

/-- The content of the Excel workbook as `io.load_parameters` reads it:
the available sheet names, the scenario column of the `carbon_price`
sheet, and the tabular data of each sheet as resolved maps.  The sorted
year index of the carbon-price rows is taken as given in `cp_years`. -/
structure Workbook where
  sheet_names : List String
  cp_scenarios : List String
  cp_years : List ℕ
  routes : List String
  tech : String → Tech
  intensity : String → Intensity
  ef_scope1 : String → ℚ
  demand : ℕ → ℚ
  carbon_price : String → ℕ → ℚ
  free_alloc : ℕ → Option ℚ
  fuel_price : String → ℕ → ℚ

/-- `io.load_parameters` (`io.py` lines 9-48): first the loop over
`REQUIRED_SHEETS` raising at the first missing sheet, then the
carbon-price scenario membership check, then assembly of the parameter
dictionary.  Both failures happen before any model is built. -/
def load_parameters (wb : Workbook) (carbon_scenario : String) :
    Except DataError Params :=
  match REQUIRED_SHEETS.find? (fun s => !(wb.sheet_names.contains s)) with
  | some s => .error (.missingSheet s)
  | none =>
    if wb.cp_scenarios.contains carbon_scenario then
      .ok { t0 := wb.cp_years.headD 0
            tN := wb.cp_years.getLastD 0
            routes := wb.routes
            tech := wb.tech
            intensity := wb.intensity
            ef_scope1 := wb.ef_scope1
            demand := wb.demand
            carbon_price := wb.carbon_price carbon_scenario
            free_alloc := wb.free_alloc
            price_fn := wb.fuel_price }
    else .error (.unknownScenario carbon_scenario)

/-- `io_original.select_scenario` (`io_original.py` lines 7-13): filter
the scenario matrix by name and raise if no row matches; otherwise the
first matching row is returned. -/
def select_scenario (rows : List (String × ℚ)) (scenario_name : String) :
    Except DataError ℚ :=
  match rows.find? (fun rw => rw.1 = scenario_name) with
  | some rw => .ok rw.2
  | none => .error (.unknownScenario scenario_name)

/-- A built model as `run.main` produces it (`run.py` lines 24-26):
parameters plus the feasible set and objective over the decision
variables.  A value of this type exists only downstream of a successful
`load_parameters`. -/
structure BuiltModel where
  params : Params
  feasibleSet : Assign → Prop
  objective : Assign → ℚ

/-- `model.build_model` at the interface level used by `run.main`. -/
def run_build (p : Params) (discount_rate utilization : ℚ)
    (hydrogen_case : String) (ccus_capture_max : ℚ) : BuiltModel :=
  { params := p
    feasibleSet := Feasible p utilization ccus_capture_max
    objective := obj_rule p discount_rate hydrogen_case }

/-- The load-then-build prefix of `run.main` (`run.py` lines 24-26):
the model — and with it every decision variable — is only created after
`load_parameters` succeeds. -/
def run_load_and_build (wb : Workbook) (carbon_scenario : String)
    (discount_rate utilization : ℚ) (hydrogen_case : String)
    (ccus_capture_max : ℚ) : Except DataError BuiltModel :=
  (load_parameters wb carbon_scenario).map
    (fun p => run_build p discount_rate utilization hydrogen_case ccus_capture_max)

/-- C8: parameter loading fails with the missing-sheet error when any
required table is absent (at the first such sheet, in `REQUIRED_SHEETS`
order), and with the unknown-scenario error when every required sheet is
present but the requested carbon-price scenario is not among the
scenario rows (likewise in `select_scenario` of the original pipeline);
in each case the load-then-build pipeline yields the error and no model
— hence no decision variable — is ever constructed. -/
theorem load_parameters_error_paths (wb : Workbook) (scen : String)
    (dr u cc : ℚ) (hc : String) :
    ((∃ s ∈ REQUIRED_SHEETS, s ∉ wb.sheet_names) →
      ∃ s2, s2 ∈ REQUIRED_SHEETS ∧ s2 ∉ wb.sheet_names ∧
        load_parameters wb scen = .error (.missingSheet s2) ∧
        run_load_and_build wb scen dr u hc cc = .error (.missingSheet s2))
    ∧ ((∀ s ∈ REQUIRED_SHEETS, s ∈ wb.sheet_names) → scen ∉ wb.cp_scenarios →
        load_parameters wb scen = .error (.unknownScenario scen) ∧
        run_load_and_build wb scen dr u hc cc = .error (.unknownScenario scen))
    ∧ (∀ rows : List (String × ℚ), (∀ rw ∈ rows, rw.1 ≠ scen) →
        select_scenario rows scen = .error (.unknownScenario scen)) := by
  refine ⟨?_, ?_, ?_⟩
  · intro hmiss
    have hsome : (REQUIRED_SHEETS.find?
        (fun s => !(wb.sheet_names.contains s))).isSome := by
      rw [List.find?_isSome]
      obtain ⟨s, hs, hns⟩ := hmiss
      exact ⟨s, hs, by simpa using hns⟩
    obtain ⟨s2, hfind⟩ := Option.isSome_iff_exists.mp hsome
    have hload : load_parameters wb scen = .error (.missingSheet s2) := by
      unfold load_parameters
      rw [hfind]
    refine ⟨s2, List.mem_of_find?_eq_some hfind, ?_, hload, ?_⟩
    · have := List.find?_some hfind
      simpa using this
    · unfold run_load_and_build
      rw [hload]
      rfl
  · intro hall hscen
    have hfind : REQUIRED_SHEETS.find?
        (fun s => !(wb.sheet_names.contains s)) = none := by
      rw [List.find?_eq_none]
      intro s hs
      simpa using hall s hs
    have hmem : wb.cp_scenarios.contains scen = false := by
      simpa using hscen
    have hload : load_parameters wb scen = .error (.unknownScenario scen) := by
      unfold load_parameters
      rw [hfind]
      simp [hscen]
    refine ⟨hload, ?_⟩
    unfold run_load_and_build
    rw [hload]
    rfl
  · intro rows hrows
    have hfind : rows.find? (fun rw => rw.1 = scen) = none := by
      rw [List.find?_eq_none]
      intro rw hrw
      simpa using hrows rw hrw
    simp [select_scenario, hfind]

/-- A complete workbook for the witness, with one scenario named
`"NGFS_NetZero2050"`. -/
def wbFull : Workbook :=
  { sheet_names := REQUIRED_SHEETS
    cp_scenarios := ["NGFS_NetZero2050"]
    cp_years := [0, 1]
    routes := ["BF-BOF"]
    tech := fun _ => techA
    intensity := fun _ => intensZero
    ef_scope1 := fun _ => 1
    demand := fun _ => 1
    carbon_price := fun _ _ => 1
    free_alloc := fun _ => none
    fuel_price := fun _ _ => 0 }

/-- The same workbook with the `ef_scope1` sheet missing. -/
def wbMissing : Workbook :=
  { wbFull with sheet_names :=
      ["tech_routes", "process_intensity", "fuel_prices",
       "carbon_price", "free_allocation_linked", "demand_path"] }

/-- Witness for C8: the missing-sheet error fires on `wbMissing`, the
unknown-scenario error fires on `wbFull` with an unknown name, and
`select_scenario` fails on a matrix without the requested row. -/
theorem load_parameters_error_paths_witness :
    (∃ s2, s2 ∈ REQUIRED_SHEETS ∧ s2 ∉ wbMissing.sheet_names ∧
      load_parameters wbMissing "NGFS_NetZero2050" = .error (.missingSheet s2) ∧
      run_load_and_build wbMissing "NGFS_NetZero2050" (5/100) (9/10) "baseline" 0.80
        = .error (.missingSheet s2))
    ∧ (load_parameters wbFull "NoSuchScenario" = .error (.unknownScenario "NoSuchScenario") ∧
       run_load_and_build wbFull "NoSuchScenario" (5/100) (9/10) "baseline" 0.80
        = .error (.unknownScenario "NoSuchScenario"))
    ∧ select_scenario [("HardConstraints", 0)] "NoSuchScenario"
        = .error (.unknownScenario "NoSuchScenario") := by
  refine ⟨?_, ?_, ?_⟩
  · exact (load_parameters_error_paths wbMissing "NGFS_NetZero2050"
      (5/100) (9/10) 0.80 "baseline").1 ⟨"ef_scope1", by decide, by decide⟩
  · exact (load_parameters_error_paths wbFull "NoSuchScenario"
      (5/100) (9/10) 0.80 "baseline").2.1 (by decide) (by decide)
  · exact (load_parameters_error_paths wbFull "NoSuchScenario"
      (5/100) (9/10) 0.80 "baseline").2.2 [("HardConstraints", 0)] (by decide)

/-- Solver termination conditions distinguished by the runners. -/
inductive TermCond where
  | optimal
  | feasible
  | infeasible
  | other
  deriving DecidableEq

/-- The run-level summary JSON written by `run.main`
(`run.py` lines 47-62): objective value, cumulative scope-1 emissions
(sum of the series column), total production (sum over the per-route
production columns), scenario name and discount rate. -/
structure Summary where
  scenario : String
  discount_rate : ℚ
  objective_USD : ℚ
  cumulative_scope1_MtCO2 : ℚ
  total_production_Mt : ℚ

/-- The set of files `run.main` leaves on disk for one run: `none`
means the file was never written. -/
structure Outputs where
  series : Option (List SeriesRow)
  detailed : Option (List DetailedRow)
  summary : Option Summary

/-- The export phase of `run.main` (`run.py` lines 28-66): nothing is
written without `--solve`; with `--solve`, if the termination condition
is neither optimal nor feasible the function returns after printing a
warning — writing no series, no detailed file and no summary — and
otherwise writes all three artifacts. -/
def run_main_outputs (p : Params) (scenario : String)
    (discount_rate utilization : ℚ) (hydrogen_case : String) (a : Assign)
    (solve : Bool) (tc : TermCond) : Outputs :=
  if solve then
    if tc = .optimal ∨ tc = .feasible then
      let series := export_timeseries_rows p a
      { series := some series
        detailed := some (export_detailed_rows p discount_rate utilization
          hydrogen_case a)
        summary := some
          { scenario := scenario
            discount_rate := discount_rate
            objective_USD := obj_rule p discount_rate hydrogen_case a
            cumulative_scope1_MtCO2 := (series.map (fun row => row.scope1_MtCO2)).sum
            total_production_Mt :=
              (series.map (fun row => (row.Q_Mt.map Prod.snd).sum)).sum } }
    else { series := none, detailed := none, summary := none }
  else { series := none, detailed := none, summary := none }

/-- One long-form record of the original runner's series CSV
(`run_original.py` lines 48-93); the `variable` column is `varname`
here. -/
structure SeriesRowO where
  year : ℕ
  route : String
  varname : String
  value : ℚ

/-- The series rows written by `run_original.main` after a solve
(`run_original.py` lines 48-93): build decisions, capacity levels,
production by route and class, and per-route production totals. -/
def run_original_series (po : ParamsO) (ao : AssignO) : List SeriesRowO :=
  (RoutesO.flatMap (fun r => po.years.map (fun t =>
    { year := t, route := r, varname := "build_decision",
      value := b2q (ao.x r t) : SeriesRowO })))
  ++ (RoutesO.flatMap (fun r => po.years.map (fun t =>
    { year := t, route := r, varname := "capacity_Mt",
      value := ao.Kcap r t : SeriesRowO })))
  ++ (RoutesO.flatMap (fun r => ClassesO.flatMap (fun k => po.years.map (fun t =>
    { year := t, route := r, varname := "production_" ++ k ++ "_Mt",
      value := ao.Q r k t : SeriesRowO }))))
  ++ (RoutesO.flatMap (fun r => po.years.map (fun t =>
    { year := t, route := r, varname := "total_production_Mt",
      value := (ClassesO.map (fun k => ao.Q r k t)).sum : SeriesRowO })))

/-- The original runner's summary JSON (`run_original.py` lines 36-43). -/
structure SummaryO where
  routes : List String
  years : List ℕ
  objective : Option ℚ

/-- The files `run_original.main` leaves on disk. -/
structure OutputsO where
  summary : Option SummaryO
  series : Option (List SeriesRowO)

/-- The export phase of `run_original.main` (`run_original.py` lines
21-94): a dry run without `--solve` writes nothing; an unavailable
solver aborts; otherwise the summary is always written and, whenever a
solve ran, the full series as well — the termination condition `tc` is
printed but never consulted. -/
def run_original_outputs (po : ParamsO) (ao : AssignO) (objv : ℚ)
    (solve dry_run solver_available : Bool) (tc : TermCond) : OutputsO :=
  if dry_run ∧ ¬ solve then { summary := none, series := none }
  else if solve ∧ ¬ solver_available then { summary := none, series := none }
  else
    let summaryO : SummaryO :=
      { routes := RoutesO, years := po.years, objective := some objv }
    { summary := some summaryO
      series := if solve then some (run_original_series po ao) else none }

/-- C9 (amended): in `run.main` a termination condition that is neither
optimal nor feasible yields no artifacts at all — no per-year rows, no
partial file, and no summary either (the failure is only printed) — and
all three artifacts are written exactly when the status is optimal or
feasible; `run_original.main`, by contrast, never consults the
termination condition: its outputs are identical for any two conditions,
and after any solve with an available solver they include the full
per-year series. -/
theorem export_gating (p : Params) (scenario : String) (dr u : ℚ)
    (hc : String) (a : Assign) (tc : TermCond)
    (po : ParamsO) (ao : AssignO) (objv : ℚ) :
    (¬ (tc = .optimal ∨ tc = .feasible) →
      run_main_outputs p scenario dr u hc a true tc =
        { series := none, detailed := none, summary := none })
    ∧ ((tc = .optimal ∨ tc = .feasible) →
      run_main_outputs p scenario dr u hc a true tc =
        { series := some (export_timeseries_rows p a)
          detailed := some (export_detailed_rows p dr u hc a)
          summary := some
            { scenario := scenario
              discount_rate := dr
              objective_USD := obj_rule p dr hc a
              cumulative_scope1_MtCO2 :=
                ((export_timeseries_rows p a).map (fun row => row.scope1_MtCO2)).sum
              total_production_Mt :=
                ((export_timeseries_rows p a).map
                  (fun row => (row.Q_Mt.map Prod.snd).sum)).sum } })
    ∧ (∀ tc2 : TermCond,
        run_original_outputs po ao objv true false true tc =
          run_original_outputs po ao objv true false true tc2)
    ∧ (run_original_outputs po ao objv true false true tc).series
        = some (run_original_series po ao) := by
  refine ⟨?_, ?_, ?_, ?_⟩
  · intro h
    simp [run_main_outputs, h]
  · intro h
    simp [run_main_outputs, h]
  · intro tc2
    simp [run_original_outputs]
  · simp [run_original_outputs]

/-- Witness for C9: at `tc = infeasible` the gated runner writes
nothing; at `tc = optimal` it writes all three artifacts; the original
runner's outputs at `infeasible` equal those at `optimal`. -/
theorem export_gating_witness :
    run_main_outputs pA "NGFS_NetZero2050" 0 1 "baseline" aA true .infeasible =
      { series := none, detailed := none, summary := none }
    ∧ run_main_outputs pA "NGFS_NetZero2050" 0 1 "baseline" aA true .optimal =
      { series := some (export_timeseries_rows pA aA)
        detailed := some (export_detailed_rows pA 0 1 "baseline" aA)
        summary := some
          { scenario := "NGFS_NetZero2050"
            discount_rate := 0
            objective_USD := obj_rule pA 0 "baseline" aA
            cumulative_scope1_MtCO2 :=
              ((export_timeseries_rows pA aA).map (fun row => row.scope1_MtCO2)).sum
            total_production_Mt :=
              ((export_timeseries_rows pA aA).map
                (fun row => (row.Q_Mt.map Prod.snd).sum)).sum } }
    ∧ run_original_outputs poC aoC 0 true false true .infeasible =
        run_original_outputs poC aoC 0 true false true .optimal := by
  refine ⟨?_, ?_, ?_⟩
  · exact (export_gating pA "NGFS_NetZero2050" 0 1 "baseline" aA .infeasible
      poC aoC 0).1 (by decide)
  · exact (export_gating pA "NGFS_NetZero2050" 0 1 "baseline" aA .optimal
      poC aoC 0).2.1 (by decide)
  · exact (export_gating pA "NGFS_NetZero2050" 0 1 "baseline" aA .infeasible
      poC aoC 0).2.2.1 .optimal

/-- C9 counterexample: with an infeasible termination condition the
original runner still writes the per-year series (a nonempty row list)
and a summary, and the gated runner writes no summary at all — so
neither "no per-year output rows are written" nor "the run-level summary
indicates the failure" holds of the code as claimed. -/
theorem original_export_ignores_status_cex :
    (run_original_outputs poC aoC 0 true false true .infeasible).series
      = some (run_original_series poC aoC)
    ∧ (run_original_series poC aoC).length = 60
    ∧ (run_original_outputs poC aoC 0 true false true .infeasible).summary ≠ none
    ∧ (run_main_outputs pA "NGFS_NetZero2050" 0 1 "baseline" aA true
        .infeasible).summary = none := by
  refine ⟨by simp [run_original_outputs], ?_, by simp [run_original_outputs], ?_⟩
  · simp [run_original_series, RoutesO, ClassesO, ParamsO.years, poC, List.range']
  · simp [run_main_outputs]

/-- Pandas forward-fill (`fillna(method="ffill")`,
`model_original.py` line 23) over a year-ordered column: each missing
entry takes the carried last seen value; leading missing entries stay
missing when the carry starts empty. -/
def ffill : Option ℚ → List (Option ℚ) → List (Option ℚ)
  | _, [] => []
  | last, none :: xs => last :: ffill last xs
  | _, some v :: xs => some v :: ffill (some v) xs

/-- The second fill value of `model_original.py` line 23:
`baseline_demand if baseline_demand else 0.0` — the 2023 baseline when
present and nonzero (Python truthiness), else `0.0`. -/
def baseline_fill : Option ℚ → ℚ
  | some b => if b = 0 then 0.0 else b
  | none => 0.0

/-- The demand-total resolution of `model_original.build_model`
(`model_original.py` lines 13-33) on the year-ordered crude-steel
column: forward-fill, then fill the remaining missing entries with the
truthy 2023 baseline (else zero), then replace any year whose total is
zero by the first year's value (the "conservative placeholder" of
line 33). -/
def demand_totals (baseline : Option ℚ) (raw : List (Option ℚ)) : List ℚ :=
  let filled := (ffill none raw).map (fun v => v.getD (baseline_fill baseline))
  filled.map (fun total => if total = 0 then filled.headD 0 else total)

/-- One step of resolving a maybe-missing entry against a carried
value: a present value replaces the carry. -/
def resolveStep (acc x : Option ℚ) : Option ℚ :=
  match x with
  | some v => some v
  | none => acc

/-- The most recent present value in a prefix of the series. -/
def lastKnown (pre : List (Option ℚ)) : Option ℚ :=
  pre.foldl resolveStep none

/-- Modelled from the spec's words, for the refinement comparison only:
"gaps are forward-filled then zero-filled" — each position takes the
most recent earlier-or-equal present value, and zero where none exists;
no other substitution. -/
def spec_demand_fill (raw : List (Option ℚ)) : List ℚ :=
  (List.range raw.length).map (fun i => (lastKnown (raw.take (i + 1))).getD 0)

/-- Forward-filling preserves length. -/
theorem ffill_length (last : Option ℚ) (xs : List (Option ℚ)) :
    (ffill last xs).length = xs.length := by
  induction xs generalizing last with
  | nil => rfl
  | cons x tl ih => cases x <;> simp [ffill, ih]

/-- Position `i` of a forward-filled series is the carry folded through
the first `i+1` entries: the most recent present value at or before `i`,
else the initial carry. -/
theorem ffill_getElem? (xs : List (Option ℚ)) :
    ∀ (last : Option ℚ) (i : ℕ), i < xs.length →
      (ffill last xs)[i]? = some ((xs.take (i + 1)).foldl resolveStep last) := by
  induction xs with
  | nil =>
    intro last i h
    simp at h
  | cons x tl ih =>
    intro last i h
    cases i with
    | zero => cases x <;> simp [ffill, resolveStep]
    | succ n =>
      cases x <;>
        simp [ffill, resolveStep, ih _ n (by simpa using h)]

/-- C7 (amended): the resolved demand total at each year is the
forward-filled value — the most recent present value at or before that
year — with remaining gaps filled by the truthy 2023 baseline (zero only
when no baseline is present or it is zero), and with one further
substitution: a year resolving to zero is replaced by the first year's
resolved value. -/
theorem demand_fill_characterization (baseline : Option ℚ)
    (raw : List (Option ℚ)) (i : ℕ) (h : i < raw.length) :
    (demand_totals baseline raw)[i]? =
      some (if (lastKnown (raw.take (i + 1))).getD (baseline_fill baseline) = 0
            then (lastKnown (raw.take 1)).getD (baseline_fill baseline)
            else (lastKnown (raw.take (i + 1))).getD (baseline_fill baseline)) := by
  have h0 : 0 < raw.length := Nat.lt_of_le_of_lt (Nat.zero_le i) h
  have hf := ffill_getElem? raw none i h
  have hf0 := ffill_getElem? raw none 0 h0
  have hhead : ((ffill none raw).map
      (fun v => v.getD (baseline_fill baseline))).headD 0
        = (lastKnown (raw.take 1)).getD (baseline_fill baseline) := by
    rw [List.headD_eq_head?_getD, List.head?_eq_getElem?, List.getElem?_map,
      hf0]
    rfl
  simp only [demand_totals, List.getElem?_map, hf, hhead, lastKnown]
  rfl

/-- Witness for C7: on the series `[missing, 5]` with 2023 baseline 7,
the first resolved total is the baseline 7 (not zero). -/
theorem demand_fill_characterization_witness :
    (0 : ℕ) < ([none, some 5] : List (Option ℚ)).length
    ∧ (demand_totals (some 7) [none, some 5])[0]? =
      some (if (lastKnown (([none, some 5] : List (Option ℚ)).take 1)).getD
              (baseline_fill (some 7)) = 0
            then (lastKnown (([none, some 5] : List (Option ℚ)).take 1)).getD
              (baseline_fill (some 7))
            else (lastKnown (([none, some 5] : List (Option ℚ)).take 1)).getD
              (baseline_fill (some 7))) :=
  ⟨by decide, demand_fill_characterization (some 7) [none, some 5] 0 (by decide)⟩

/-- C7 counterexample: the code's resolution differs from the spec's
forward-fill-then-zero policy in two ways — a leading gap is filled with
the 2023 baseline (7, where the spec fills 0), and a present zero is
replaced by the first year's value (3, where the spec keeps 0). -/
theorem demand_fill_policy_cex :
    demand_totals (some 7) [none, some 5] = [7, 5]
    ∧ spec_demand_fill [none, some 5] = [0, 5]
    ∧ demand_totals none [some 3, some 0] = [3, 3]
    ∧ spec_demand_fill [some 3, some 0] = [3, 0]
    ∧ demand_totals (some 7) [none, some 5] ≠ spec_demand_fill [none, some 5]
    ∧ demand_totals none [some 3, some 0] ≠ spec_demand_fill [some 3, some 0] := by
  refine ⟨?_, ?_, ?_, ?_, ?_, ?_⟩ <;>
    norm_num [demand_totals, spec_demand_fill, ffill, baseline_fill,
      lastKnown, resolveStep, List.range_succ]

/-- C10: in the aggregate model builder the pre-build initial capacity
is hard-coded — the route named `"BF-BOF"` starts with the first year's
demand and every other route with zero; it is a function of the demand
schedule and the route name only, identical across any two parameter
sets agreeing on first-year demand (hence not a per-route input
parameter), and in every feasible assignment first-year capacity equals
this hard-coded value plus the units built that year. -/
theorem initial_capacity_hardcoded (p p2 : Params) (u cc : ℚ) (a : Assign)
    (r : String) (hA : Feasible p u cc a)
    (hd : p.demand p.t0 = p2.demand p2.t0) (ht0 : p.t0 ∈ p.years)
    (hr : r ∈ p.routes) :
    init_cap p r = (if r = "BF-BOF" then p.demand p.t0 else 0)
    ∧ init_cap p r = init_cap p2 r
    ∧ a.K r p.t0 = init_cap p r
        + (p.tech r).unit_capacity_Mtpy * (a.Build r p.t0 : ℚ) := by
  refine ⟨?_, ?_, ?_⟩
  · norm_num [init_cap]
  · unfold init_cap
    rw [hd]
  · have h := hA.1 r hr p.t0 ht0
    rwa [if_pos rfl] at h

/-- A parameter set with entirely different technology data and routes
than `pA` but the same first-year demand. -/
def pA2 : Params :=
  { pA with
    routes := ["Scrap EAF", "H2-DRI/HyREX"]
    tech := fun _ =>
      { unit_capacity_Mtpy := 3, capex_USD_per_tpy := 7,
        fixed_opex_USD_per_tpy := 11 }
    ef_scope1 := fun _ => 2
    carbon_price := fun _ => 9 }

/-- Witness for C10 at the concrete instance: `"BF-BOF"` starts at the
first-year demand of `pA` regardless of `pA2`'s differing technology
table, and the feasible assignment's first-year capacity decomposes
accordingly. -/
theorem initial_capacity_hardcoded_witness :
    init_cap pA "BF-BOF" = (if "BF-BOF" = "BF-BOF" then pA.demand pA.t0 else 0)
    ∧ init_cap pA "BF-BOF" = init_cap pA2 "BF-BOF"
    ∧ aA.K "BF-BOF" pA.t0 = init_cap pA "BF-BOF"
        + (pA.tech "BF-BOF").unit_capacity_Mtpy * (aA.Build "BF-BOF" pA.t0 : ℚ) :=
  initial_capacity_hardcoded pA pA2 1 0 aA "BF-BOF" feasible_pA_aA
    (by decide) (by decide) (by decide)

end PoscoDecarb
